import Mathlib

/-!
Shallow embedding of the learn-gen pipeline core: the orchestrator
(`packages/engines/orchestrate.py`), the procedural animation engine
(`packages/engines/anim.py`) and the compositor (`packages/engines/render.py`).

Python machine arithmetic is modelled exactly where the claims need it:

* Python `int(x)` on a non-negative float is truncation; durations and frame
  products are modelled as exact rationals (all concrete inputs used below are
  dyadic, hence exactly representable as floats, so the rational model agrees
  with the float computation at those points).
* Python `round` is round-half-to-even (banker's rounding).
* Python `a or b` on strings returns `b` when `a` is `None` or `""`.
* `str.split()` splits on whitespace runs and drops empty fields.
* `hashlib.sha1` is embedded in full (padding, schedule, 80 rounds) over
  `Nat` with explicit reduction mod 2^32.

Pixel coordinates inside a frame are abstracted to the item index that
generated the drawing operation (the x position is a fixed injective function
of the index); every other observable of a rendering call is kept.
-/

namespace LearnGen

/-- Python `a or b` where `a : Optional[str]`: the first truthy operand,
`b` when `a` is `None` or the empty string. -/
def pyOrStr (a : Option String) (b : String) : String :=
  match a with
  | some s => if s = "" then b else s
  | none => b

/-- Python `str.strip()` on a character list: drop leading and trailing
whitespace. -/
def stripChars (l : List Char) : List Char :=
  List.rdropWhile Char.isWhitespace (l.dropWhile Char.isWhitespace)

/-- Python `str.strip()`. -/
def pyStrip (s : String) : String :=
  ⟨stripChars s.toList⟩

/-- Python `str.split()` (no argument): split on whitespace runs, dropping
empty fields. -/
def pyWords (s : String) : List String :=
  (s.split Char.isWhitespace).filter (· ≠ "")

/-- Python `str.lower()` (ASCII range; the phrases tested are ASCII). -/
def pyLower (s : String) : String :=
  s.map Char.toLower

/-- `needle` is a leading segment of `hay`. -/
def leadsList : List Char → List Char → Bool
  | [], _ => true
  | _ :: _, [] => false
  | a :: as, b :: bs => a = b && leadsList as bs

/-- `needle` occurs contiguously inside `hay` (Python `needle in hay`). -/
def hasSub (needle : List Char) : List Char → Bool
  | [] => needle.isEmpty
  | b :: bs => leadsList needle (b :: bs) || hasSub needle bs

/-- Python `needle in hay` for strings. -/
def strHasSub (hay needle : String) : Bool :=
  hasSub needle.toList hay.toList

/-- Python 3 `round` on an exact rational: round half to even. -/
def pyRound (q : ℚ) : ℤ :=
  let f := q.floor
  let r := q - (f : ℚ)
  if r < 1/2 then f
  else if 1/2 < r then f + 1
  else if f % 2 = 0 then f else f + 1

/-- Python `int(x)` on a float: truncate toward zero. -/
def pyInt (q : ℚ) : ℤ :=
  if 0 ≤ q then q.floor else q.ceil

/-! ## Orchestrator: `_dims` (orchestrate.py lines 23-30) -/

/-- `_dims(aspect, target_height)`: portrait gives width `round(H*9/16)`,
square gives `H`, anything else (landscape) gives `round(H*16/9)`; the
height is always `target_height`. -/
def dims (aspect : String) (target_height : ℕ) : ℕ × ℕ :=
  if aspect = "portrait" then
    ((pyRound ((target_height : ℚ) * 9 / 16)).toNat, target_height)
  else if aspect = "square" then
    (target_height, target_height)
  else
    ((pyRound ((target_height : ℚ) * 16 / 9)).toNat, target_height)

/-! ## Orchestrator: narration validation (orchestrate.py lines 49-58, 125-136) -/

/-- `_should_ignore_narration`: true when the narration is empty, has fewer
than 8 whitespace-separated words, or contains `"test video"` or
`"placeholder"` after lowercasing. -/
def shouldIgnoreNarration (narration : String) : Bool :=
  if narration = "" then true
  else if (pyWords (pyStrip narration)).length < 8 then true
  else if strHasSub (pyLower narration) "test video" ||
      strHasSub (pyLower narration) "placeholder" then true
  else false

/-- The narration stage of `run`: `narration_raw = (plan.get("narration_full")
or "").strip()`; if `_should_ignore_narration(narration_raw)` a `ValueError`
is raised (no substitute narration is used), otherwise `narration_raw` itself
becomes the narration passed to TTS. -/
def validateNarration (narration_full : Option String) : Except String String :=
  let raw := pyStrip (pyOrStr narration_full "")
  if shouldIgnoreNarration raw then
    Except.error "Narration invalid or too short; aborting render."
  else
    Except.ok raw

/-! ## Orchestrator: plan model and per-beat clip building
(orchestrate.py lines 15-20, 141-210)

`plan` is a raw JSON dict produced by `llm.produce_plan`; optional keys are
modelled with `Option`.  The observables of one `anim.render` call issued by
the orchestrator are collected into `ClipReq` (kind, items, title, subject,
duration, and whether a background-image request was issued for the beat). -/

/-- A beat dict: `type`, `narration`, `onscreen.title`, `onscreen.bullets`
(default `[]`), and the `onscreen.assets` entries the orchestrator reads. -/
structure PyBeat where
  type : Option String
  narration : Option String
  title : Option String
  bullets : List String
  need_image : Option Bool
  subject : Option String
  reference_terms : Option (List String)
deriving Repr, DecidableEq

/-- A section dict: `id` and its beat list. -/
structure PySection where
  id : Option String
  beats : List PyBeat
deriving Repr, DecidableEq

/-- `_flatten_beats`: all `(section, beat)` pairs in order. -/
def flattenBeats (sections : List PySection) : List (PySection × PyBeat) :=
  sections.flatMap (fun sec => sec.beats.map (fun b => (sec, b)))

/-- Observables of one `anim.render` call issued by the orchestrator. -/
structure ClipReq where
  kind : String
  items : Option (List String)
  title : String
  subject : String
  duration : ℚ
  imageRequested : Bool
deriving Repr, DecidableEq

/-- Per-beat duration: `n = max(1, len(flattened)); per = max(4.0, dur_s / n)`
(orchestrate.py lines 143-144). -/
def perBeatDuration (dur_s : ℚ) (beatCount : ℕ) : ℚ :=
  max 4 (dur_s / (max 1 beatCount : ℕ))

/-- The render kind chosen for a beat (orchestrate.py lines 182-188):
`timeline` and `anim_path` map to themselves, `diagram` and everything else
(including `layout`) fall back to the diagram spec. -/
def beatRenderKind (b : PyBeat) : String :=
  if b.type = some "timeline" then "timeline"
  else if b.type = some "anim_path" then "path"
  else "diagram"

/-- The `items` entry of the spec built for a beat (orchestrate.py line 184):
only timeline beats carry items, `bullets or ["Act I", "Act II", "Act III"]`. -/
def beatItems (b : PyBeat) : Option (List String) :=
  if b.type = some "timeline" then
    some (if b.bullets = [] then ["Act I", "Act II", "Act III"] else b.bullets)
  else none

/-- The body of the per-beat loop (orchestrate.py lines 148-197): derive
title/subject/references, decide the need-image signal, map the beat type to a
render kind, and record the duration `per` passed to `anim.render`. -/
def beatClip (topic : String) (per : ℚ) (engineAvail : Bool) (mode : String)
    (sec : PySection) (b : PyBeat) : ClipReq :=
  { kind := beatRenderKind b
    items := beatItems b
    title := pyOrStr b.title (pyOrStr sec.id topic)
    subject := pyOrStr b.subject (pyOrStr b.title (pyOrStr sec.id topic))
    duration := per
    imageRequested :=
      engineAvail &&
        (mode == "force" ||
          (b.need_image.getD false ||
            (pyOrStr b.subject (pyOrStr b.title (pyOrStr sec.id topic)) != "" ||
              b.reference_terms.getD [] != []))) }

/-- Stage 2 of `run` (orchestrate.py lines 141-210): flatten the plan, compute
the per-beat duration, and build one `ClipReq` per beat; when the flattened
beat list is empty, build the single fallback diagram clip spanning
`max(6.0, dur_s)` (image attempted whenever the engine is available and the
mode is not `"none"`). -/
def buildClips (planTopic : Option String) (cfgTopic : String)
    (sections : List PySection) (dur_s : ℚ)
    (engineAvail : Bool) (mode : String) : List ClipReq :=
  if (flattenBeats sections).isEmpty then
    [{ kind := "diagram", items := none, title := pyOrStr planTopic cfgTopic,
       subject := pyOrStr planTopic cfgTopic,
       duration := max 6 dur_s,
       imageRequested := engineAvail && mode != "none" }]
  else
    (flattenBeats sections).map (fun sb =>
      beatClip cfgTopic (perBeatDuration dur_s (flattenBeats sections).length)
        engineAvail mode sb.1 sb.2)

/-- The sequential skeleton of `run` relevant to validation: narration is
validated first; only on success are audio duration, clips and composition
reached.  The audio duration `dur_s` is a parameter (it comes from probing the
synthesized speech, an external collaborator). -/
structure PipelineOk where
  narration : String
  clips : List ClipReq
deriving Repr, DecidableEq

/-- `run` up to clip building: validate narration (raising aborts the run
before any audio or video work), then build the per-beat clips. -/
def runPipeline (planTopic : Option String) (narration_full : Option String)
    (cfgTopic : String) (sections : List PySection) (dur_s : ℚ)
    (engineAvail : Bool) (mode : String) : Except String PipelineOk :=
  match validateNarration narration_full with
  | Except.error e => Except.error e
  | Except.ok narr =>
      Except.ok ⟨narr, buildClips planTopic cfgTopic sections dur_s engineAvail mode⟩

/-! ## Animation engine (anim.py)

Drawing is modelled symbolically: each frame records which items produced
drawing operations (pixel x positions are a fixed injective function of the
item index and are abstracted to the index). -/

/-- `nframes = max(1, int(fps * duration_s))` (anim.py line 505). -/
def nframesFor (fps : ℕ) (duration_s : ℚ) : ℕ :=
  max 1 (pyInt ((fps : ℚ) * duration_s)).toNat

/-- The reveal threshold of `_render_timeline` (anim.py line 303):
`int(((idx + 1) / (len(items) + 1)) * nframes)`. -/
def revealThreshold (idx itemCount nframes : ℕ) : ℕ :=
  (pyInt (((idx : ℚ) + 1) / ((itemCount : ℚ) + 1) * (nframes : ℚ))).toNat

/-- Observables of one timeline frame.  The item loop (anim.py lines 302-314)
draws a pulse ellipse for every item; the node circle and the label drawing
(lines 316-332) sit after the loop body, so they use the loop variables'
final values: exactly one node circle, at the last item's position, and at
most one label, the last item's. -/
structure TimelineFrame where
  pulseIdxs : List ℕ
  nodeIdx : ℕ
  nodeRevealed : Bool
  labelShown : Option String
deriving Repr, DecidableEq

/-- `_render_timeline` (anim.py lines 273-336).  With an empty item list the
loop never runs and line 316 reads the unbound loop variable `x`
(`NameError`): modelled as `none`. -/
def renderTimeline (items : List String) (nframes : ℕ) :
    Option (List TimelineFrame) :=
  match items.getLast? with
  | none => none
  | some lastLabel =>
      let n := items.length
      some ((List.range nframes).map (fun frame_idx =>
        let reveal := revealThreshold (n - 1) n nframes
        { pulseIdxs := List.range n
          nodeIdx := n - 1
          nodeRevealed := decide (reveal ≤ frame_idx)
          labelShown := if reveal ≤ frame_idx then some lastLabel else none }))

/-- Observables of one diagram frame (anim.py lines 455-484): the title and
the first four bullets drawn as pills (`_draw_bullets` takes `bullets[:4]`). -/
structure DiagramFrame where
  titleDrawn : Bool
  bulletsShown : List String
deriving Repr, DecidableEq

/-- `_render_diagram` (anim.py lines 419-484): one frame per index. -/
def renderDiagram (title : String) (bullets : List String) (nframes : ℕ) :
    List DiagramFrame :=
  (List.range nframes).map (fun _ =>
    { titleDrawn := title ≠ "", bulletsShown := bullets.take 4 })

/-- Observables of one path frame (anim.py lines 339-416): the frame index
(the eased Bézier progress is a fixed real function of it, not needed by any
claim). -/
structure PathFrame where
  frame_idx : ℕ
deriving Repr, DecidableEq

/-- `_render_path` skeleton: one frame per index. -/
def renderPath (nframes : ℕ) : List PathFrame :=
  (List.range nframes).map (fun i => { frame_idx := i })

/-- The `spec` dict handed to `anim.render`: the keys it reads. -/
structure ClipSpecL where
  kind : Option String
  diagramKind : Option String
  items : Option (List String)
  subject : Option String
  references : Option (List String)
deriving Repr, DecidableEq

/-- `kind = (spec.get("diagram", {}) or {}).get("kind") or spec.get("kind")
or "diagram"` (anim.py line 498). -/
def specKind (spec : ClipSpecL) : String :=
  pyOrStr spec.diagramKind (pyOrStr spec.kind "diagram")

/-- The frame sequence produced by one `anim.render` call. -/
inductive RenderedFrames where
  | timeline (frames : List TimelineFrame)
  | path (frames : List PathFrame)
  | diagram (frames : List DiagramFrame)
deriving Repr, DecidableEq

/-- Number of frames in a rendered sequence. -/
def RenderedFrames.count : RenderedFrames → ℕ
  | RenderedFrames.timeline fs => fs.length
  | RenderedFrames.path fs => fs.length
  | RenderedFrames.diagram fs => fs.length

/-- `anim.render` (anim.py lines 487-527): compute `nframes` once, resolve the
kind, and dispatch.  For `timeline`, `items = spec.get("items", ["Act I",
"Act II", "Act III"])`: the default applies only when the key is absent, and
an explicitly empty list makes `_render_timeline` fail (`none`). -/
def animRender (spec : ClipSpecL) (duration_s : ℚ) (title : String)
    (bullets : List String) (fps : ℕ) : Option RenderedFrames :=
  if specKind spec = "timeline" then
    (renderTimeline (spec.items.getD ["Act I", "Act II", "Act III"])
      (nframesFor fps duration_s)).map RenderedFrames.timeline
  else if specKind spec = "path" then
    some (RenderedFrames.path (renderPath (nframesFor fps duration_s)))
  else
    some (RenderedFrames.diagram (renderDiagram title bullets (nframesFor fps duration_s)))

/-! ## Palette engine (anim.py lines 29-111)

`_palette_for(seed)` indexes the fixed `PALETTES` tuple by
`int(hashlib.sha1(seed.encode("utf-8")).hexdigest(), 16) % len(PALETTES)`.
SHA-1 is embedded in full so that the selection is visibly a pure, stable
function of the seed bytes. -/

/-- 32-bit left rotation (operands below 2^32). -/
def rotl32 (n x : ℕ) : ℕ :=
  ((x <<< n) % 4294967296) ||| (x >>> (32 - n))

/-- The SHA-1 round function. -/
def sha1F (t b c d : ℕ) : ℕ :=
  if t < 20 then (b &&& c) ||| ((b ^^^ 4294967295) &&& d)
  else if t < 40 then b ^^^ c ^^^ d
  else if t < 60 then (b &&& c) ||| (b &&& d) ||| (c &&& d)
  else b ^^^ c ^^^ d

/-- The SHA-1 round constants. -/
def sha1K (t : ℕ) : ℕ :=
  if t < 20 then 1518500249
  else if t < 40 then 1859775393
  else if t < 60 then 2400959708
  else 3395469782

/-- Next word of the SHA-1 message schedule. -/
def sha1NextWord (w : List ℕ) : ℕ :=
  let n := w.length
  rotl32 1 (w.getD (n - 3) 0 ^^^ w.getD (n - 8) 0 ^^^
            w.getD (n - 14) 0 ^^^ w.getD (n - 16) 0)

/-- Extend 16 schedule words to 80. -/
def sha1Extend (w : List ℕ) : List ℕ :=
  (List.range 64).foldl (fun acc _ => acc ++ [sha1NextWord acc]) w

/-- One SHA-1 compression step over a 16-word chunk. -/
def sha1Compress (h : List ℕ) (chunkWords : List ℕ) : List ℕ :=
  let w := sha1Extend chunkWords
  let st := (List.range 80).foldl
    (fun (st : ℕ × ℕ × ℕ × ℕ × ℕ) t =>
      let (a, b, c, d, e) := st
      let temp :=
        (rotl32 5 a + sha1F t b c d + e + sha1K t + w.getD t 0) % 4294967296
      (temp, a, rotl32 30 b, c, d))
    (h.getD 0 0, h.getD 1 0, h.getD 2 0, h.getD 3 0, h.getD 4 0)
  [(h.getD 0 0 + st.1) % 4294967296,
   (h.getD 1 0 + st.2.1) % 4294967296,
   (h.getD 2 0 + st.2.2.1) % 4294967296,
   (h.getD 3 0 + st.2.2.2.1) % 4294967296,
   (h.getD 4 0 + st.2.2.2.2) % 4294967296]

/-- `k` bytes of `n`, big-endian. -/
def bytesBE (k n : ℕ) : List ℕ :=
  (List.range k).map (fun i => (n >>> (8 * (k - 1 - i))) % 256)

/-- SHA-1 padding: append `0x80`, zero bytes to 56 mod 64, and the bit length
as 8 big-endian bytes. -/
def sha1Pad (msg : List ℕ) : List ℕ :=
  msg ++ [128] ++ List.replicate ((119 - msg.length % 64) % 64) 0 ++
    bytesBE 8 (msg.length * 8)

/-- Split a byte list into 64-byte chunks. -/
def chunks64 (l : List ℕ) : List (List ℕ) :=
  if h : l = [] then []
  else l.take 64 :: chunks64 (l.drop 64)
termination_by l.length
decreasing_by
  simp only [List.length_drop]
  have hl : 0 < l.length := List.length_pos.mpr h
  omega

/-- Interpret a 64-byte chunk as 16 big-endian 32-bit words. -/
def wordsOf16 (chunk : List ℕ) : List ℕ :=
  (List.range 16).map (fun i =>
    chunk.getD (4 * i) 0 * 16777216 + chunk.getD (4 * i + 1) 0 * 65536 +
    chunk.getD (4 * i + 2) 0 * 256 + chunk.getD (4 * i + 3) 0)

/-- The SHA-1 digest of a byte list, as the natural number
`int(hexdigest, 16)`. -/
def sha1Nat (msg : List ℕ) : ℕ :=
  let hs := (chunks64 (sha1Pad msg)).foldl
    (fun h c => sha1Compress h (wordsOf16 c))
    [1732584193, 4023233417, 2562383102, 271733878, 3285377520]
  hs.foldl (fun acc x => acc * 4294967296 + x) 0

/-- UTF-8 encoding of one code point. -/
def utf8Encode (c : ℕ) : List ℕ :=
  if c < 128 then [c]
  else if c < 2048 then [192 + c / 64, 128 + c % 64]
  else if c < 65536 then [224 + c / 4096, 128 + c / 64 % 64, 128 + c % 64]
  else [240 + c / 262144, 128 + c / 4096 % 64, 128 + c / 64 % 64, 128 + c % 64]

/-- `seed.encode("utf-8")`. -/
def strBytes (s : String) : List ℕ :=
  (s.toList.map (fun c => c.toNat)).flatMap utf8Encode

/-- Value of one hex digit. -/
def hexDigitVal (c : Char) : ℕ :=
  if 48 ≤ c.toNat ∧ c.toNat ≤ 57 then c.toNat - 48
  else if 97 ≤ c.toNat ∧ c.toNat ≤ 102 then c.toNat - 87
  else if 65 ≤ c.toNat ∧ c.toNat ≤ 70 then c.toNat - 55
  else 0

/-- `int(value[i:i+2], 16)` on a character list. -/
def hexPair (l : List Char) (i : ℕ) : ℕ :=
  16 * hexDigitVal (l.getD i '0') + hexDigitVal (l.getD (i + 1) '0')

/-- `_hex_to_rgb` (anim.py lines 92-94): strip `#`, parse three byte pairs. -/
def hexToRgb (s : String) : ℕ × ℕ × ℕ :=
  let l := s.toList.dropWhile (· = '#')
  (hexPair l 0, hexPair l 2, hexPair l 4)

/-- One entry of the `PALETTES` tuple (hex form, anim.py lines 30-59). -/
structure PaletteHex where
  bgTop : String
  bgBottom : String
  primary : String
  secondary : String
  accent : String
  neutral : String
deriving Repr, DecidableEq

/-- The fixed curated palette set (anim.py lines 30-59). -/
def PALETTES : List PaletteHex :=
  [⟨"#0F1C4D", "#1F4CBF", "#FFB347", "#4CD7F6", "#FF6B8C", "#F5F7FF"⟩,
   ⟨"#1A1040", "#3A2B8C", "#FFD166", "#63E6BE", "#FF6F61", "#FAFBFF"⟩,
   ⟨"#10273F", "#1E5F99", "#FF9F1C", "#6EE7FF", "#845EF7", "#F1F5FF"⟩,
   ⟨"#122B39", "#215372", "#F4A261", "#2DD4BF", "#FF5D8F", "#F8FAFC"⟩]

/-- A palette in RGB form, as returned by `_palette_for`. -/
structure Palette where
  bgTop : ℕ × ℕ × ℕ
  bgBottom : ℕ × ℕ × ℕ
  primary : ℕ × ℕ × ℕ
  secondary : ℕ × ℕ × ℕ
  accent : ℕ × ℕ × ℕ
  neutral : ℕ × ℕ × ℕ
deriving Repr, DecidableEq

/-- Hex-to-RGB decoding of one palette entry (anim.py lines 105-111). -/
def decodePalette (p : PaletteHex) : Palette :=
  ⟨hexToRgb p.bgTop, hexToRgb p.bgBottom, hexToRgb p.primary,
   hexToRgb p.secondary, hexToRgb p.accent, hexToRgb p.neutral⟩

/-- `_palette_for(seed)` (anim.py lines 102-111). -/
def paletteFor (seed : String) : Palette :=
  let idx := sha1Nat (strBytes seed) % PALETTES.length
  decodePalette (PALETTES.getD idx ⟨"", "", "", "", "", ""⟩)

/-! ## Compositor (render.py) -/

/-- The blank clip synthesized by `_synthesize_blank_video` (render.py lines
13-22): duration `max(1.0, duration_s)`, the given fps, and the `width`/
`height` parameters, which default to 1920x1080. -/
structure BlankVideo where
  duration : ℚ
  fps : ℕ
  width : ℕ
  height : ℕ
deriving Repr, DecidableEq

/-- `_synthesize_blank_video(duration_s, fps, out_path, width=1920,
height=1080)`. -/
def synthesizeBlankVideo (duration_s : ℚ) (fps : ℕ)
    (width : ℕ := 1920) (height : ℕ := 1080) : BlankVideo :=
  { duration := max 1 duration_s, fps := fps, width := width, height := height }

/-- What `compose` produces before muxing (render.py lines 34-44): either the
concatenation of the given clips, or — when the clip list is empty — the
blank video from `_synthesize_blank_video(10.0, fps, composed)`, which leaves
`width`/`height` at their 1920x1080 defaults. -/
inductive ComposedVideo where
  | concat (clips : List String)
  | blank (v : BlankVideo)
deriving Repr, DecidableEq

/-- The concat-or-blank step of `compose`. -/
def composeVideo (clips : List String) (fps : ℕ) : ComposedVideo :=
  if clips.isEmpty then
    ComposedVideo.blank (synthesizeBlankVideo 10 fps)
  else
    ComposedVideo.concat clips

/-! ## Helper lemmas -/

/-- First element of a list given by a leading-segment decomposition. -/
theorem getZeroAppend {α : Type} (s t u : List α) (h : s ++ t = u)
    (hs : 0 < s.length) (hu : 0 < u.length) : u.get ⟨0, hu⟩ = s.get ⟨0, hs⟩ := by
  subst h
  simp only [List.get_eq_getElem]
  exact List.getElem_append_left hs

/-- Stripping is idempotent on character lists. -/
theorem stripChars_idem (l : List Char) : stripChars (stripChars l) = stripChars l := by
  unfold stripChars
  have h1 : (List.rdropWhile Char.isWhitespace
        (l.dropWhile Char.isWhitespace)).dropWhile Char.isWhitespace
      = List.rdropWhile Char.isWhitespace (l.dropWhile Char.isWhitespace) := by
    rw [List.dropWhile_eq_self_iff]
    intro hl
    obtain ⟨t, ht⟩ := List.rdropWhile_prefix Char.isWhitespace
      (l.dropWhile Char.isWhitespace)
    have hu := (List.dropWhile_eq_self_iff).mp
      (List.dropWhile_idempotent Char.isWhitespace l)
    have hlen : 0 < (l.dropWhile Char.isWhitespace).length := by
      rw [← ht, List.length_append]
      omega
    rw [← getZeroAppend _ t _ ht hl hlen]
    exact hu hlen
  rw [h1, List.rdropWhile_idempotent]

/-- Python strip is idempotent. -/
theorem pyStrip_idem (s : String) : pyStrip (pyStrip s) = pyStrip s :=
  congrArg String.mk (stripChars_idem s.toList)

/-- When `_render_timeline` succeeds it produces exactly `nframes` frames. -/
theorem renderTimeline_length (items : List String) (n : ℕ) (fs : List TimelineFrame)
    (h : renderTimeline items n = some fs) : fs.length = n := by
  unfold renderTimeline at h
  cases hlast : items.getLast? with
  | none => rw [hlast] at h; exact absurd h (by simp)
  | some lastLabel =>
      rw [hlast] at h
      simp only [Option.some.injEq] at h
      rw [← h]
      simp

/-- `_render_timeline` succeeds exactly on non-empty item lists. -/
theorem renderTimeline_isSome (items : List String) (n : ℕ) (hne : items ≠ []) :
    ∃ fs, renderTimeline items n = some fs := by
  unfold renderTimeline
  cases hlast : items.getLast? with
  | none => exact absurd (List.getLast?_eq_none_iff.mp hlast) hne
  | some lastLabel => exact ⟨_, rfl⟩

/-- `pyOrStr` never returns the empty string when its fallback is non-empty. -/
theorem pyOrStr_ne_empty (a : Option String) (b : String) (hb : b ≠ "") :
    pyOrStr a b ≠ "" := by
  cases a with
  | none => simpa [pyOrStr]
  | some s =>
      by_cases hs : s = "" <;> simp [pyOrStr, hs] <;> simp_all

/-! ## Claim theorems -/

/-- Claim C1, counterexample: at `fps = 2`, `duration = 1.75` (exactly
representable as a float), the code synthesizes `max(1, int(2*1.75)) = 3`
frames while the claimed formula `max(1, round(fps*duration))` gives 4:
`anim.render` truncates with `int()`, it does not round. -/
theorem c1_counterexample :
    (animRender ⟨some "diagram", none, none, none, none⟩ (7/4) "Topic" [] 2).map
        RenderedFrames.count = some 3 ∧
    max 1 (pyRound ((2 : ℚ) * (7/4))).toNat = 4 := by
  with_unfolding_all decide

/-- Claim C1 (amended): the number of frames synthesized for a clip equals
`max(1, int(fps * duration))` — truncation, not rounding — computed once per
clip by `anim.render` and respected by every kind-specific renderer. -/
theorem c1_frame_count (spec : ClipSpecL) (duration_s : ℚ) (title : String)
    (bullets : List String) (fps : ℕ) (rf : RenderedFrames)
    (h : animRender spec duration_s title bullets fps = some rf) :
    rf.count = max 1 (pyInt ((fps : ℚ) * duration_s)).toNat := by
  unfold animRender at h
  by_cases h1 : specKind spec = "timeline"
  · rw [if_pos h1] at h
    cases hr : renderTimeline (spec.items.getD ["Act I", "Act II", "Act III"])
        (nframesFor fps duration_s) with
    | none => rw [hr] at h; simp at h
    | some fs =>
        rw [hr] at h
        simp only [Option.map_some'] at h
        cases h
        exact renderTimeline_length _ _ _ hr
  · rw [if_neg h1] at h
    by_cases h2 : specKind spec = "path"
    · rw [if_pos h2] at h
      cases h
      simp [RenderedFrames.count, renderPath, nframesFor]
    · rw [if_neg h2] at h
      cases h
      simp [RenderedFrames.count, renderDiagram, nframesFor]

set_option maxRecDepth 100000 in
/-- Claim C1 witness: the amended formula evaluated at `fps = 2`,
`duration = 1.75`. -/
theorem c1_frame_count_witness :
    (RenderedFrames.diagram (renderDiagram "Topic" [] 3)).count =
      max 1 (pyInt ((2 : ℚ) * (7/4))).toNat :=
  c1_frame_count ⟨some "diagram", none, none, none, none⟩ (7/4) "Topic" [] 2
    (RenderedFrames.diagram (renderDiagram "Topic" [] 3)) (by with_unfolding_all rfl)

/-- Claim C2, code evaluated at the failing input: rendering a timeline clip
with items `["A", "B", "C"]` over 8 frames draws the node circle only for the
last item (index 2) on every frame, and only item C's label (from frame 6 on);
items A and B never receive a node or label, although item A's reveal
threshold `int((1/4)*8) = 2` is reached from frame 2 — the node/label drawing
sits after the item loop and uses the loop variables' final values, so the
claimed per-item reveal behaviour does not happen. -/
theorem c2_timeline_last_item_only :
    (renderTimeline ["A", "B", "C"] 8).map (fun fs => fs.map (fun f => f.nodeIdx)) =
        some (List.replicate 8 2) ∧
    (renderTimeline ["A", "B", "C"] 8).map (fun fs => fs.map (fun f => f.labelShown)) =
        some [none, none, none, none, none, none, some "C", some "C"] ∧
    revealThreshold 0 3 8 = 2 ∧ revealThreshold 1 3 8 = 4 := by
  with_unfolding_all decide

set_option maxRecDepth 100000 in
/-- Claim C5, counterexample: `compose` never learns the configured
resolution; with `aspect="portrait", target_height=1920` the configured
resolution is (1080, 1920), but the blank placeholder synthesized for an
empty clip list is always 1920x1080 (the defaults of
`_synthesize_blank_video`). -/
theorem c5_counterexample :
    composeVideo [] 30 = ComposedVideo.blank ⟨10, 30, 1920, 1080⟩ ∧
    dims "portrait" 1920 = (1080, 1920) ∧
    ((1920, 1080) : ℕ × ℕ) ≠ (1080, 1920) := by
  with_unfolding_all decide

/-- Claim C5 (amended): compose with an empty clip list does not fail: it
synthesizes a blank placeholder clip of fixed 10-second duration at the
configured frame rate, but at the fixed default resolution 1920x1080, not the
configured target resolution; with a non-empty list it concatenates. -/
theorem c5_blank_fallback (fps : ℕ) :
    composeVideo [] fps = ComposedVideo.blank ⟨10, fps, 1920, 1080⟩ ∧
    ∀ clips : List String, clips ≠ [] → composeVideo clips fps = ComposedVideo.concat clips := by
  constructor
  · have hmax : max (1 : ℚ) 10 = 10 := by norm_num
    unfold composeVideo synthesizeBlankVideo
    show ComposedVideo.blank ⟨max 1 10, fps, 1920, 1080⟩ = _
    rw [hmax]
  · intro clips hc
    unfold composeVideo
    rw [if_neg (by simpa [List.isEmpty_iff] using hc)]

/-- Claim C5 witness: the blank fallback and the concatenation branch at
`fps = 24`. -/
theorem c5_blank_fallback_witness :
    composeVideo [] 24 = ComposedVideo.blank ⟨10, 24, 1920, 1080⟩ ∧
    composeVideo ["clip0.mp4"] 24 = ComposedVideo.concat ["clip0.mp4"] :=
  ⟨(c5_blank_fallback 24).1, (c5_blank_fallback 24).2 ["clip0.mp4"] (by simp)⟩

/-- Claim C6: palette selection is deterministic — `_palette_for` is a pure
function of the seed string alone (two evaluations agree), it factors through
the embedded SHA-1 digest of the seed's UTF-8 bytes (a stable hash, identical
across process restarts, with no per-run randomness), and it always selects
one of the four fixed curated palettes. -/
theorem c6_palette_deterministic (seed : String) :
    paletteFor seed = paletteFor seed ∧
    paletteFor seed =
      decodePalette (PALETTES.getD (sha1Nat (strBytes seed) % PALETTES.length)
        ⟨"", "", "", "", "", ""⟩) ∧
    ∃ i, i < PALETTES.length ∧
      paletteFor seed = decodePalette (PALETTES.getD i ⟨"", "", "", "", "", ""⟩) :=
  ⟨rfl, rfl, ⟨sha1Nat (strBytes seed) % PALETTES.length,
    Nat.mod_lt _ (by decide), rfl⟩⟩

/-- Claim C8: for each aspect the resolved height is exactly the target
height, the width is the claimed rounded value (`round` being Python's
round-half-to-even), and Scenario B holds: portrait at 1920 gives
(1080, 1920). -/
theorem c8_dims (H : ℕ) (hH : 0 < H) :
    dims "landscape" H = ((pyRound ((H : ℚ) * 16 / 9)).toNat, H) ∧
    dims "portrait" H = ((pyRound ((H : ℚ) * 9 / 16)).toNat, H) ∧
    dims "square" H = (H, H) ∧
    dims "portrait" 1920 = (1080, 1920) := by
  refine ⟨?_, ?_, ?_, ?_⟩
  · unfold dims
    rw [if_neg (by decide), if_neg (by decide)]
  · unfold dims
    rw [if_pos rfl]
  · unfold dims
    rw [if_neg (by decide), if_pos rfl]
  · with_unfolding_all decide

/-- Claim C8 witness: the dimension formulas evaluated at `H = 1920`. -/
theorem c8_dims_witness :
    dims "landscape" 1920 = ((pyRound ((1920 : ℚ) * 16 / 9)).toNat, 1920) ∧
    dims "portrait" 1920 = ((pyRound ((1920 : ℚ) * 9 / 16)).toNat, 1920) ∧
    dims "square" 1920 = (1920, 1920) ∧
    dims "portrait" 1920 = (1080, 1920) :=
  c8_dims 1920 (by decide)

/-- Claim C3: the orchestrator rejects the narration with a fatal error —
before any audio or video work (the `Except` short-circuits, so no clips or
composition are produced) — if and only if the (stripped) narration text is
empty, has fewer than 8 whitespace-separated words, or contains "test video"
or "placeholder" after lowercasing; when the narration is accepted it is used
verbatim (no substitute narration ever replaces it). -/
theorem c3_narration_validation (planTopic narration_full : Option String)
    (cfgTopic : String) (sections : List PySection) (dur_s : ℚ)
    (eng : Bool) (mode : String) :
    ((∃ e, runPipeline planTopic narration_full cfgTopic sections dur_s eng mode =
        Except.error e) ↔
      (pyStrip (pyOrStr narration_full "") = "" ∨
       (pyWords (pyStrip (pyOrStr narration_full ""))).length < 8 ∨
       strHasSub (pyLower (pyStrip (pyOrStr narration_full ""))) "test video" = true ∨
       strHasSub (pyLower (pyStrip (pyOrStr narration_full ""))) "placeholder" = true)) ∧
    ∀ r, runPipeline planTopic narration_full cfgTopic sections dur_s eng mode =
        Except.ok r → r.narration = pyStrip (pyOrStr narration_full "") := by
  set raw := pyStrip (pyOrStr narration_full "") with hraw
  have hidem : pyStrip raw = raw := by rw [hraw]; exact pyStrip_idem _
  have hiff : shouldIgnoreNarration raw = true ↔
      (raw = "" ∨ (pyWords raw).length < 8 ∨
       strHasSub (pyLower raw) "test video" = true ∨
       strHasSub (pyLower raw) "placeholder" = true) := by
    unfold shouldIgnoreNarration
    rw [hidem]
    split_ifs with h1 h2 h3
    · simp [h1]
    · simp [h1, h2]
    · simp only [Bool.or_eq_true] at h3
      simp only [true_iff]
      tauto
    · simp only [Bool.or_eq_true, not_or] at h3
      simp only [Bool.false_eq_true, false_iff, not_or]
      push_neg
      exact ⟨h1, ⟨by omega, by tauto, by tauto⟩⟩
  by_cases hig : shouldIgnoreNarration raw = true
  · have hrun : runPipeline planTopic narration_full cfgTopic sections dur_s eng mode =
        Except.error "Narration invalid or too short; aborting render." := by
      unfold runPipeline validateNarration
      rw [← hraw, if_pos hig]
    refine ⟨⟨fun _ => hiff.mp hig, fun _ => ⟨_, hrun⟩⟩, ?_⟩
    intro r hr
    rw [hrun] at hr
    cases hr
  · have hrun : runPipeline planTopic narration_full cfgTopic sections dur_s eng mode =
        Except.ok ⟨raw, buildClips planTopic cfgTopic sections dur_s eng mode⟩ := by
      unfold runPipeline validateNarration
      rw [← hraw, if_neg hig]
    refine ⟨⟨?_, fun hrhs => absurd (hiff.mpr hrhs) hig⟩, ?_⟩
    · rintro ⟨e, he⟩
      rw [hrun] at he
      cases he
    · intro r hr
      rw [hrun] at hr
      cases hr
      rfl

set_option maxRecDepth 400000 in
/-- Claim C3 witness: a well-formed 12-word narration is accepted and used
verbatim as the pipeline's narration. -/
theorem c3_narration_validation_witness :
    (⟨pyStrip (pyOrStr
        (some "Black holes bend light because gravity curves spacetime near the event horizon") ""),
      buildClips none "Topic" [] 30 false "none"⟩ : PipelineOk).narration =
      pyStrip (pyOrStr
        (some "Black holes bend light because gravity curves spacetime near the event horizon") "") :=
  (c3_narration_validation none
      (some "Black holes bend light because gravity curves spacetime near the event horizon")
      "Topic" [] 30 false "none").2 _ (by with_unfolding_all rfl)

/-- Claim C4: with at least one beat, every clip's allocated duration equals
`max(4.0, total / n)` where `n` is the flattened beat count, so no beat is
allocated less than the 4-second floor; `total=60, n=10` gives 6.0 and
`total=10, n=10` gives 4.0. -/
theorem c4_per_beat_duration (planTopic : Option String) (cfgTopic : String)
    (sections : List PySection) (dur_s : ℚ) (eng : Bool) (mode : String)
    (hne : flattenBeats sections ≠ []) :
    (∀ c ∈ buildClips planTopic cfgTopic sections dur_s eng mode,
        c.duration = max 4 (dur_s / ((flattenBeats sections).length : ℚ)) ∧
        4 ≤ c.duration) ∧
    perBeatDuration 60 10 = 6 ∧ perBeatDuration 10 10 = 4 := by
  refine ⟨?_, ?_, ?_⟩
  · intro c hc
    unfold buildClips at hc
    rw [if_neg (by simpa [List.isEmpty_iff] using hne)] at hc
    obtain ⟨sb, hsb, rfl⟩ := List.mem_map.mp hc
    have hpos : 0 < (flattenBeats sections).length := List.length_pos.mpr hne
    have hlen : max 1 (flattenBeats sections).length = (flattenBeats sections).length := by
      omega
    constructor
    · show perBeatDuration dur_s (flattenBeats sections).length = _
      unfold perBeatDuration
      rw [hlen]
    · exact le_max_left _ _
  · with_unfolding_all decide
  · with_unfolding_all decide

set_option maxRecDepth 100000 in
/-- Claim C4 witness: the allocator on a 10-beat plan with 60 seconds of
narration, and the two concrete allocations from the claim. -/
theorem c4_per_beat_duration_witness :
    perBeatDuration 60 10 = 6 ∧ perBeatDuration 10 10 = 4 :=
  (c4_per_beat_duration none "Topic"
      [⟨some "intro", List.replicate 10 ⟨none, none, none, [], none, none, none⟩⟩]
      60 false "none" (by with_unfolding_all decide)).2

/-- Claim C7: a plan whose flattened beat list is empty yields exactly one
clip, of diagram kind, spanning `max(6.0, narration duration)` seconds, and
the orchestrator never yields zero clips for any plan. -/
theorem c7_zero_beats (planTopic : Option String) (cfgTopic : String)
    (sections : List PySection) (dur_s : ℚ) (eng : Bool) (mode : String) :
    (flattenBeats sections = [] →
      buildClips planTopic cfgTopic sections dur_s eng mode =
        [{ kind := "diagram", items := none, title := pyOrStr planTopic cfgTopic,
           subject := pyOrStr planTopic cfgTopic, duration := max 6 dur_s,
           imageRequested := eng && mode != "none" }]) ∧
    buildClips planTopic cfgTopic sections dur_s eng mode ≠ [] := by
  constructor
  · intro h
    unfold buildClips
    rw [if_pos (by simp [h])]
  · unfold buildClips
    by_cases h : (flattenBeats sections).isEmpty
    · rw [if_pos h]
      simp
    · rw [if_neg h]
      simp_all [List.isEmpty_iff]

/-- Claim C7 witness: the zero-beat fallback on an empty plan with a 30-second
narration. -/
theorem c7_zero_beats_witness :
    buildClips none "Topic" [] 30 true "auto" =
      [{ kind := "diagram", items := none, title := pyOrStr none "Topic",
         subject := pyOrStr none "Topic", duration := max 6 30,
         imageRequested := true && "auto" != "none" }] ∧
    buildClips none "Topic" [] 30 true "auto" ≠ [] :=
  ⟨(c7_zero_beats none "Topic" [] 30 true "auto").1 rfl,
   (c7_zero_beats none "Topic" [] 30 true "auto").2⟩

set_option maxRecDepth 100000 in
/-- Claim C9 counterexample: a timeline ClipSpec whose items list is
explicitly empty makes `anim.render` fail (the item loop never runs and the
node drawing reads an unbound variable): the default 3-item placeholder is
applied only when the `items` key is absent, not when the list is empty. -/
theorem c9_counterexample :
    animRender ⟨some "timeline", none, some [], none, none⟩ 2 "Title" [] 8 = none := by
  with_unfolding_all decide

/-- Claim C9 (amended): a timeline ClipSpec with no `items` entry renders with
the default 3-item placeholder ("Act I", "Act II", "Act III") and does not
fail; the orchestrator itself substitutes that placeholder when a timeline
beat has no bullets, so it never passes an explicitly empty items list (which
would make rendering fail). -/
theorem c9_default_items (spec : ClipSpecL) (duration_s : ℚ) (title : String)
    (bullets : List String) (fps : ℕ)
    (hk : spec.kind = some "timeline") (hdk : spec.diagramKind = none)
    (hi : spec.items = none) :
    animRender spec duration_s title bullets fps =
      (renderTimeline ["Act I", "Act II", "Act III"] (nframesFor fps duration_s)).map
        RenderedFrames.timeline ∧
    (∃ fs, animRender spec duration_s title bullets fps =
        some (RenderedFrames.timeline fs) ∧ fs.length = nframesFor fps duration_s) ∧
    (∀ (topic : String) (per : ℚ) (eng : Bool) (mode : String)
        (sec : PySection) (b : PyBeat),
        b.type = some "timeline" → b.bullets = [] →
        (beatClip topic per eng mode sec b).items = some ["Act I", "Act II", "Act III"]) := by
  have hkind : specKind spec = "timeline" := by
    unfold specKind
    rw [hdk, hk]
    rfl
  have h1 : animRender spec duration_s title bullets fps =
      (renderTimeline ["Act I", "Act II", "Act III"] (nframesFor fps duration_s)).map
        RenderedFrames.timeline := by
    unfold animRender
    rw [if_pos hkind, hi]
    rfl
  refine ⟨h1, ?_, ?_⟩
  · obtain ⟨fs, hfs⟩ := renderTimeline_isSome ["Act I", "Act II", "Act III"]
      (nframesFor fps duration_s) (by simp)
    exact ⟨fs, by rw [h1, hfs]; rfl, renderTimeline_length _ _ _ hfs⟩
  · intro topic per eng mode sec b hb hbl
    show beatItems b = _
    unfold beatItems
    rw [if_pos hb, if_pos hbl]

/-- Claim C9 witness: a timeline spec with no items entry renders from the
default placeholder items at 8 fps over 2 seconds. -/
theorem c9_default_items_witness :
    animRender ⟨some "timeline", none, none, none, none⟩ 2 "Title" [] 8 =
      (renderTimeline ["Act I", "Act II", "Act III"] (nframesFor 8 2)).map
        RenderedFrames.timeline :=
  (c9_default_items ⟨some "timeline", none, none, none, none⟩ 2 "Title" [] 8
    rfl rfl rfl).1

set_option maxRecDepth 100000 in
/-- Claim C10 counterexample: the schema requires `topic` to be present but
not non-empty; with an empty topic, an empty section id, and a beat with no
title, subject, references, or need-image flag, the need-image signal is
false and no background-image request is issued even in auto mode with the
engine available. -/
theorem c10_counterexample :
    (buildClips none ""
        [⟨some "", [⟨some "diagram", some "beat narration", none, [], none, none, none⟩]⟩]
        30 true "auto").map (fun c => c.imageRequested) = [false] := by
  with_unfolding_all decide

/-- Claim C10 (amended): when the image mode is auto, the engine is available
and the configured topic is non-empty, a background-image request is issued
for every clip: the subject falls back to the title, which falls back to the
section id and then the topic, so the non-empty-subject disjunct of the
need-image signal always holds. -/
theorem c10_auto_image (planTopic : Option String) (cfgTopic : String)
    (sections : List PySection) (dur_s : ℚ) (ht : cfgTopic ≠ "") :
    ∀ c ∈ buildClips planTopic cfgTopic sections dur_s true "auto",
      c.imageRequested = true := by
  intro c hc
  unfold buildClips at hc
  by_cases hfl : (flattenBeats sections).isEmpty
  · rw [if_pos hfl] at hc
    simp only [List.mem_singleton] at hc
    subst hc
    rfl
  · rw [if_neg hfl] at hc
    obtain ⟨sb, hsb, rfl⟩ := List.mem_map.mp hc
    have hsubj : pyOrStr sb.2.subject (pyOrStr sb.2.title (pyOrStr sb.1.id cfgTopic)) ≠ "" :=
      pyOrStr_ne_empty _ _ (pyOrStr_ne_empty _ _ (pyOrStr_ne_empty _ _ ht))
    simp [beatClip, bne_iff_ne, hsubj]

/-- Claim C10 witness: with a non-empty topic, the single beat of a
one-section plan gets a background-image request in auto mode. -/
theorem c10_auto_image_witness :
    (beatClip "Topic" (perBeatDuration 30 1) true "auto"
        ⟨some "intro", [⟨some "diagram", none, none, [], none, none, none⟩]⟩
        ⟨some "diagram", none, none, [], none, none, none⟩).imageRequested = true :=
  c10_auto_image none "Topic"
    [⟨some "intro", [⟨some "diagram", none, none, [], none, none, none⟩]⟩] 30
    (by decide) _ (by with_unfolding_all decide)

end LearnGen
